import Mathlib

/-!
Shallow embedding of `src/cos2cos/cos_2_cos.py` (the cos-2-cos event-intake,
migration-pipeline and reconciliation engine).

The Python program keeps, per server, three pieces of mutable state created in
`create_server`: the counter dictionary `event_stats`, the list
`event_history`, and the list `buckets`.  Two Flask handlers mutate that
state: `handle_cos_event` (notification trigger, POST /events/cos) and
`handle_cron_event` (reconciliation trigger, POST /events/cron).  The
per-object migration is `FileHandler.do`, which calls the external
cloud-object-storage client (`get_file`, `put_file`, `delete_file`); the
client is modelled as an oracle whose operations either succeed or fail with
a `COSError`, as the storage-gateway contract states.  Each handler is
embedded as a pure state-transition function; in addition to the new state
and the HTTP response it returns the trace of storage-gateway calls it
issued, so that claims about which pipeline steps ran can be stated.
-/

/-- Bucket names and file keys are strings in the program. -/
abbrev Bucket := String

/-- The storage error raised by the COS client (`COSError` in `cos.py`,
imported by `cos_2_cos.py`; every gateway operation may fail with it). -/
inductive COSError where
  | cosError : COSError
deriving DecidableEq, Repr

/-- A JSON value, as produced by Flask's `request.get_json`.  Object fields
are an association list; `key` values extracted from a payload are arbitrary
JSON values, exactly as in the Python code. -/
inductive Json where
  | null : Json
  | bool : Bool → Json
  | num : Int → Json
  | str : String → Json
  | arr : List Json → Json
  | obj : List (String × Json) → Json

/-- Python truthiness of a parsed JSON value (`if event:` in both handlers):
`None`, `False`, `0`, `""`, `[]` and the empty object are falsy. -/
def Json.truthy : Json → Bool
  | .null => false
  | .bool b => b
  | .num n => n != 0
  | .str s => s ≠ ""
  | .arr xs => !xs.isEmpty
  | .obj fs => !fs.isEmpty

/-- Python subscript `event[k]` on a parsed JSON value.  `none` models an
uncaught exception: `KeyError` when the object lacks the field, `TypeError`
when the value is not a dict at all.  Either way the exception propagates out
of the Flask handler. -/
def Json.getItem : Json → String → Option Json
  | .obj fs, k => fs.lookup k
  | _, _ => none

/-- Python `event['bucket'] == source_bucket`: a JSON value compares equal to
a Python string only when it is that string. -/
def Json.eqStr : Json → String → Bool
  | .str s, t => s == t
  | _, _ => false

/-- One call issued to the storage gateway, recorded for tracing which
pipeline steps actually ran. -/
inductive GatewayCall where
  | get : Bucket → Json → GatewayCall
  | put : Bucket → Json → GatewayCall
  | delete : Bucket → Json → GatewayCall
  | list : Bucket → GatewayCall

/-- The external COS client (`CloudObjectStorage`), modelled as an oracle:
each operation either succeeds or fails with a `COSError`.  `get_files_info`
returns the keys of a bucket listing (insertion order of the returned dict). -/
structure Gateway where
  get_file : Bucket → Json → Except COSError Unit
  put_file : Bucket → Json → Except COSError Unit
  delete_file : Bucket → Json → Except COSError Unit
  get_files_info : Bucket → Except COSError (List String)

/-- `FileHandler` holds the parameters of one migration (the `cos_client`
field is passed separately as the gateway oracle). -/
structure FileHandler where
  source_bucket : Bucket
  destination_bucket : Bucket
  file : Json

/-- `FileHandler.do`: fetch from the source bucket, process (a no-op in the
program), store into the destination bucket, then delete from the source
bucket.  The delete is wrapped in `try/except COSError` that logs a warning
and re-raises, so semantically every `COSError` propagates to the caller.
Returns the outcome together with the trace of gateway calls issued. -/
def FileHandler.run (g : Gateway) (h : FileHandler) :
    Except COSError Unit × List GatewayCall :=
  match g.get_file h.source_bucket h.file with
  | .error e => (.error e, [.get h.source_bucket h.file])
  | .ok _ =>
    match g.put_file h.destination_bucket h.file with
    | .error e => (.error e,
        [.get h.source_bucket h.file, .put h.destination_bucket h.file])
    | .ok _ =>
      match g.delete_file h.source_bucket h.file with
      | .ok _ => (.ok (),
          [.get h.source_bucket h.file, .put h.destination_bucket h.file,
           .delete h.source_bucket h.file])
      | .error e => (.error e,
          [.get h.source_bucket h.file, .put h.destination_bucket h.file,
           .delete h.source_bucket h.file])

/-- One attempted migration as recorded in a history event's `objects` list
(the timestamps carried by the dict do not affect any behaviour and are
omitted). -/
structure TransferEvent where
  key : Json
  source_bucket : Bucket
  destination_bucket : Bucket
  status : String

/-- One entry of `event_history` (`history_event` in the handlers). -/
structure HistoryRecord where
  id : String
  objects : List TransferEvent

/-- The `event_stats` counter dictionary. -/
structure EventStats where
  cron : Nat
  cron_error : Nat
  cos : Nat
  cos_error : Nat
deriving DecidableEq, Repr

/-- The mutable server state closed over by the Flask handlers. -/
structure ServerState where
  event_stats : EventStats
  event_history : List HistoryRecord
  buckets : List Bucket

/-- The state as initialised by `create_server`. -/
def create_server (source_bucket destination_bucket : Bucket) : ServerState :=
  { event_stats := { cron := 0, cron_error := 0, cos := 0, cos_error := 0 },
    event_history := [],
    buckets := [source_bucket, destination_bucket] }

/-- What the Flask framework hands back to the HTTP client: the success text,
an `abort(400)` client error, or an uncaught Python exception (`KeyError`,
`TypeError`, or a `COSError` escaping the handler), which Flask turns into a
server error. -/
inductive Response where
  | success : Response
  | badRequest : Response
  | crashed : Response
deriving DecidableEq, Repr

/-- The status string recorded on a transfer event: `'OK'` when
`FileHandler.do` returned normally, `'Deletion Error'` when the surrounding
`except COSError` in either handler caught a storage error. -/
def migrationStatus : Except COSError Unit → String
  | .ok _ => "OK"
  | .error _ => "Deletion Error"

def incCos (s : EventStats) : EventStats := { s with cos := s.cos + 1 }
def incCosError (s : EventStats) : EventStats := { s with cos_error := s.cos_error + 1 }
def incCron (s : EventStats) : EventStats := { s with cron := s.cron + 1 }
def incCronError (s : EventStats) : EventStats := { s with cron_error := s.cron_error + 1 }

/-- `handle_cos_event` (POST /events/cos).  `body` is the result of
`request.get_json(silent=True)`: `none` when the body was not well-formed
JSON.  Mirrors the source line by line: truthiness check, bucket check (with
`cos_error` bumped before `abort(400)` on mismatch), `cos` incremented, key
extracted, `FileHandler.do` run under `except COSError` downgrading any
storage error to status `'Deletion Error'`, one history event appended, and
the conditional append of the source bucket to `buckets`. -/
def handle_cos_event (g : Gateway) (source_bucket destination_bucket : Bucket)
    (st : ServerState) (body : Option Json) :
    ServerState × Response × List GatewayCall :=
  match body with
  | some event =>
    if event.truthy then
      match event.getItem "bucket" with
      | none =>
        -- event['bucket'] raises KeyError / TypeError, uncaught
        (st, .crashed, [])
      | some b =>
        if !(b.eqStr source_bucket) then
          ({ st with event_stats := incCosError st.event_stats }, .badRequest, [])
        else
          let stats1 := incCos st.event_stats
          match event.getItem "key" with
          | none =>
            -- event['key'] raises KeyError after the increment, uncaught
            ({ st with event_stats := stats1 }, .crashed, [])
          | some source_object =>
            let handler : FileHandler :=
              { source_bucket := source_bucket,
                destination_bucket := destination_bucket,
                file := source_object }
            let result := handler.run g
            let event_status := migrationStatus result.1
            let history_event : HistoryRecord :=
              { id := "cos-" ++ toString stats1.cos,
                objects := [{ key := source_object,
                              source_bucket := source_bucket,
                              destination_bucket := destination_bucket,
                              status := event_status }] }
            let buckets1 :=
              if source_bucket ∈ st.buckets then st.buckets
              else st.buckets ++ [source_bucket]
            ({ event_stats := stats1,
               event_history := st.event_history ++ [history_event],
               buckets := buckets1 }, .success, result.2)
    else
      ({ st with event_stats := incCosError st.event_stats }, .badRequest, [])
  | none =>
    ({ st with event_stats := incCosError st.event_stats }, .badRequest, [])

/-- The body of the per-file loop of `handle_cron_event`: run the pipeline
under `except COSError` and record the transfer event. -/
def cronProcessFile (g : Gateway) (source_bucket destination_bucket : Bucket)
    (file : String) : TransferEvent × List GatewayCall :=
  let handler : FileHandler :=
    { source_bucket := source_bucket,
      destination_bucket := destination_bucket,
      file := Json.str file }
  let result := handler.run g
  let object_status := migrationStatus result.1
  ({ key := Json.str file,
     source_bucket := source_bucket,
     destination_bucket := destination_bucket,
     status := object_status }, result.2)

/-- `handle_cron_event` (POST /events/cron).  On a truthy JSON body: `cron`
is incremented, the source bucket is listed (a `COSError` there escapes the
handler uncaught, after the increment), the pipeline is run once per listed
key with every `COSError` downgraded to `'Deletion Error'`, and the single
collected history event is appended at the end. -/
def handle_cron_event (g : Gateway) (source_bucket destination_bucket : Bucket)
    (st : ServerState) (body : Option Json) :
    ServerState × Response × List GatewayCall :=
  match body with
  | some event =>
    if event.truthy then
      let stats1 := incCron st.event_stats
      match g.get_files_info source_bucket with
      | .error _ =>
        -- the COSError from the listing escapes the handler uncaught
        ({ st with event_stats := stats1 }, .crashed, [.list source_bucket])
      | .ok keys =>
        let results := keys.map (cronProcessFile g source_bucket destination_bucket)
        let history_event : HistoryRecord :=
          { id := "cron-" ++ toString stats1.cron,
            objects := results.map Prod.fst }
        ({ st with
            event_stats := stats1,
            event_history := st.event_history ++ [history_event] },
         .success,
         .list source_bucket :: (results.map Prod.snd).flatten)
    else
      ({ st with event_stats := incCronError st.event_stats }, .badRequest, [])
  | none =>
    ({ st with event_stats := incCronError st.event_stats }, .badRequest, [])

/-- One inbound trigger: which endpoint was posted to, the parsed body, and
the behaviour of the storage gateway while that trigger was being served. -/
inductive Trigger where
  | cosEvent : Gateway → Option Json → Trigger
  | cronEvent : Gateway → Option Json → Trigger

/-- Serve one trigger. -/
def serveTrigger (source_bucket destination_bucket : Bucket)
    (st : ServerState) : Trigger → ServerState × Response × List GatewayCall
  | .cosEvent g body => handle_cos_event g source_bucket destination_bucket st body
  | .cronEvent g body => handle_cron_event g source_bucket destination_bucket st body

/-- Serve a sequence of triggers starting from an arbitrary state. -/
def serveFrom (source_bucket destination_bucket : Bucket)
    (st : ServerState) (ts : List Trigger) : ServerState :=
  ts.foldl (fun s t => (serveTrigger source_bucket destination_bucket s t).1) st

/-- The server state after serving a sequence of triggers from startup. -/
def serveAll (source_bucket destination_bucket : Bucket)
    (ts : List Trigger) : ServerState :=
  serveFrom source_bucket destination_bucket
    (create_server source_bucket destination_bucket) ts

/-! Concrete gateways and payloads, used to instantiate the theorems below. -/

/-- A gateway on which every operation succeeds, over an empty source bucket. -/
def gwOk : Gateway :=
  { get_file := fun _ _ => .ok (),
    put_file := fun _ _ => .ok (),
    delete_file := fun _ _ => .ok (),
    get_files_info := fun _ => .ok [] }

/-- A gateway whose fetch (`get_file`) fails with a storage error. -/
def gwFetchFails : Gateway := { gwOk with get_file := fun _ _ => .error .cosError }

/-- A gateway whose delete fails with a storage error; everything else works. -/
def gwDeleteFails : Gateway := { gwOk with delete_file := fun _ _ => .error .cosError }

/-- A gateway listing the given keys in the source bucket, with every delete
failing. -/
def gwListDeleteFails (keys : List String) : Gateway :=
  { gwDeleteFails with get_files_info := fun _ => .ok keys }

/-- A well-formed notification payload declaring the given bucket and key. -/
def validPayload (bucket key : String) : Json :=
  Json.obj [("bucket", Json.str bucket), ("key", Json.str key)]

/-- A truthy JSON object that lacks the `bucket` field. -/
def noBucketPayload : Json := Json.obj [("x", Json.num 1)]

/-! Characterisation lemmas for the two handlers, shared by the claim
theorems below. -/

/-- On a truthy payload carrying the configured source bucket and some key,
`handle_cos_event` increments `cos`, runs the pipeline once, appends one
history event whose status is `'Deletion Error'` exactly when the pipeline
raised a `COSError`, and answers the success text. -/
theorem handle_cos_event_accepted (g : Gateway) (sb db : Bucket)
    (st : ServerState) (event k : Json)
    (htru : event.truthy = true)
    (hb : event.getItem "bucket" = some (Json.str sb))
    (hk : event.getItem "key" = some k) :
    handle_cos_event g sb db st (some event) =
      ({ event_stats := incCos st.event_stats,
         event_history := st.event_history ++
           [{ id := "cos-" ++ toString (st.event_stats.cos + 1),
              objects := [{ key := k,
                            source_bucket := sb,
                            destination_bucket := db,
                            status := migrationStatus
                              (FileHandler.run g ⟨sb, db, k⟩).1 }] }],
         buckets := if sb ∈ st.buckets then st.buckets
                    else st.buckets ++ [sb] },
       .success, (FileHandler.run g ⟨sb, db, k⟩).2) := by
  simp [handle_cos_event, htru, hb, hk, Json.eqStr, incCos]

/-- C1 (code bug): on a notification whose fetch step fails with a storage
error, the failure is NOT propagated to the caller.  The blanket
`except COSError` in `handle_cos_event` catches it, a TransferEvent with
status `'Deletion Error'` is recorded, a HistoryRecord is appended, and the
trigger answers success — the trace shows only the fetch call ran.  This
contradicts the claim that steps 1-3 failures propagate with the history
unchanged. -/
theorem fetch_failure_is_recorded_not_propagated :
    handle_cos_event gwFetchFails "src" "dst" (create_server "src" "dst")
        (some (validPayload "src" "a.txt"))
      = ({ event_stats := { cron := 0, cron_error := 0, cos := 1, cos_error := 0 },
           event_history :=
             [{ id := "cos-1",
                objects := [{ key := Json.str "a.txt",
                              source_bucket := "src",
                              destination_bucket := "dst",
                              status := "Deletion Error" }] }],
           buckets := ["src", "dst"] },
         Response.success, [GatewayCall.get "src" (Json.str "a.txt")]) := by
  rfl

/-- C2: when fetch and store succeed and only the delete fails with a storage
error, the recorded TransferEvent has status `'Deletion Error'`, the trigger
answers success, and the gateway trace is exactly fetch, store, delete —
nothing is rolled back and the failure is not escalated. -/
theorem delete_failure_recorded_not_escalated
    (g : Gateway) (sb db : Bucket) (st : ServerState) (event k : Json)
    (e : COSError)
    (htru : event.truthy = true)
    (hb : event.getItem "bucket" = some (Json.str sb))
    (hk : event.getItem "key" = some k)
    (hget : g.get_file sb k = .ok ())
    (hput : g.put_file db k = .ok ())
    (hdel : g.delete_file sb k = .error e) :
    handle_cos_event g sb db st (some event) =
      ({ event_stats := incCos st.event_stats,
         event_history := st.event_history ++
           [{ id := "cos-" ++ toString (st.event_stats.cos + 1),
              objects := [{ key := k,
                            source_bucket := sb,
                            destination_bucket := db,
                            status := "Deletion Error" }] }],
         buckets := if sb ∈ st.buckets then st.buckets
                    else st.buckets ++ [sb] },
       .success,
       [.get sb k, .put db k, .delete sb k]) := by
  rw [handle_cos_event_accepted g sb db st event k htru hb hk]
  simp [FileHandler.run, hget, hput, hdel, migrationStatus]

/-- Witness for C2 at a concrete input: all-but-delete gateway, matching
payload. -/
theorem delete_failure_recorded_not_escalated_witness :
    (handle_cos_event gwDeleteFails "src" "dst" (create_server "src" "dst")
        (some (validPayload "src" "a.txt"))).2.1 = Response.success := by
  have h := delete_failure_recorded_not_escalated gwDeleteFails "src" "dst"
    (create_server "src" "dst") (validPayload "src" "a.txt")
    (Json.str "a.txt") .cosError rfl rfl rfl rfl rfl rfl
  rw [h]

/-- C7: accepting a notification whose bucket matches the configured source
increments `cos` by exactly 1 and appends exactly one HistoryRecord holding
exactly one TransferEvent whose key is the payload's key. -/
theorem cos_accepted_increments_cos_and_appends_single_event
    (g : Gateway) (sb db : Bucket) (st : ServerState) (event k : Json)
    (htru : event.truthy = true)
    (hb : event.getItem "bucket" = some (Json.str sb))
    (hk : event.getItem "key" = some k) :
    (handle_cos_event g sb db st (some event)).1.event_stats.cos
        = st.event_stats.cos + 1 ∧
    ∃ status : String,
      (handle_cos_event g sb db st (some event)).1.event_history
        = st.event_history ++
            [{ id := "cos-" ++ toString (st.event_stats.cos + 1),
               objects := [{ key := k,
                             source_bucket := sb,
                             destination_bucket := db,
                             status := status }] }] := by
  rw [handle_cos_event_accepted g sb db st event k htru hb hk]
  exact ⟨rfl, _, rfl⟩

/-- Witness for C7 at a concrete input. -/
theorem cos_accepted_increments_cos_and_appends_single_event_witness :
    (handle_cos_event gwOk "src" "dst" (create_server "src" "dst")
        (some (validPayload "src" "a.txt"))).1.event_stats.cos = 1 := by
  have h := cos_accepted_increments_cos_and_appends_single_event gwOk "src" "dst"
    (create_server "src" "dst") (validPayload "src" "a.txt")
    (Json.str "a.txt") rfl rfl rfl
  simpa [create_server] using h.1

/-- C8: a well-formed notification declaring a bucket different from the
configured source bumps `cos_error`, leaves history and buckets untouched,
answers a client error, and issues no gateway call at all (no pipeline
step runs). -/
theorem wrong_bucket_rejected_no_pipeline
    (g : Gateway) (sb db : Bucket) (st : ServerState) (event b : Json)
    (htru : event.truthy = true)
    (hb : event.getItem "bucket" = some b)
    (hne : b.eqStr sb = false) :
    handle_cos_event g sb db st (some event)
      = ({ st with event_stats := incCosError st.event_stats },
         .badRequest, ([] : List GatewayCall)) := by
  simp [handle_cos_event, htru, hb, hne]

/-- Witness for C8 at a concrete input. -/
theorem wrong_bucket_rejected_no_pipeline_witness :
    (handle_cos_event gwOk "src" "dst" (create_server "src" "dst")
        (some (validPayload "other" "a.txt"))).2.1 = Response.badRequest := by
  have h := wrong_bucket_rejected_no_pipeline gwOk "src" "dst"
    (create_server "src" "dst") (validPayload "other" "a.txt")
    (Json.str "other") rfl rfl rfl
  rw [h]

/-- C4 (code bug): the empty JSON object is well-formed, yet
`handle_cron_event` rejects it (the `if event:` truthiness test treats the
empty dict as no payload): `cron_error` is bumped, no sweep is run, the
response is a client error. -/
theorem empty_json_object_cron_rejected :
    handle_cron_event gwOk "src" "dst" (create_server "src" "dst")
        (some (Json.obj []))
      = ({ event_stats := { cron := 0, cron_error := 1, cos := 0, cos_error := 0 },
           event_history := [],
           buckets := ["src", "dst"] },
         Response.badRequest, ([] : List GatewayCall)) := by
  rfl

/-- C3 (counterexample): a notification whose body is a truthy JSON object
without a `bucket` field makes `event['bucket']` raise before any counter is
touched: all four counters stay at their initial value 0, refuting the claim
that every trigger increments exactly one counter. -/
theorem missing_bucket_field_leaves_counters_unchanged :
    (handle_cos_event gwOk "src" "dst" (create_server "src" "dst")
        (some noBucketPayload)).1.event_stats
      = { cron := 0, cron_error := 0, cos := 0, cos_error := 0 } ∧
    (handle_cos_event gwOk "src" "dst" (create_server "src" "dst")
        (some noBucketPayload)).2.1 = Response.crashed :=
  ⟨rfl, rfl⟩

/-- Does serving this trigger reach one of the counter updates?  True for
every reconciliation trigger, and for a notification trigger unless its body
is a truthy JSON value that lacks a `bucket` field (that case raises before
any counter update). -/
def triggerCounted : Trigger → Bool
  | .cronEvent _ _ => true
  | .cosEvent _ none => true
  | .cosEvent _ (some e) => !e.truthy || (e.getItem "bucket").isSome

/-- C3 (amended): every reconciliation trigger, and every notification
trigger except those whose truthy body lacks a `bucket` field, updates the
counters to exactly one of the four single-entry increments — exactly one
entry grows, by exactly 1. -/
theorem each_counted_trigger_increments_exactly_one
    (sb db : Bucket) (st : ServerState) (t : Trigger)
    (h : triggerCounted t = true) :
    (serveTrigger sb db st t).1.event_stats = incCos st.event_stats ∨
    (serveTrigger sb db st t).1.event_stats = incCosError st.event_stats ∨
    (serveTrigger sb db st t).1.event_stats = incCron st.event_stats ∨
    (serveTrigger sb db st t).1.event_stats = incCronError st.event_stats := by
  cases t with
  | cosEvent g body =>
    cases body with
    | none =>
      right; left; simp [serveTrigger, handle_cos_event]
    | some e =>
      cases htru : e.truthy with
      | false =>
        right; left; simp [serveTrigger, handle_cos_event, htru]
      | true =>
        simp only [triggerCounted, htru, Bool.not_true, Bool.false_or] at h
        cases hb : e.getItem "bucket" with
        | none => rw [hb] at h; simp at h
        | some b =>
          cases hbe : b.eqStr sb with
          | false =>
            right; left
            simp [serveTrigger, handle_cos_event, htru, hb, hbe]
          | true =>
            cases hk : e.getItem "key" with
            | none =>
              left; simp [serveTrigger, handle_cos_event, htru, hb, hbe, hk]
            | some k =>
              left; simp [serveTrigger, handle_cos_event, htru, hb, hbe, hk]
  | cronEvent g body =>
    cases body with
    | none =>
      right; right; right; simp [serveTrigger, handle_cron_event]
    | some e =>
      cases htru : e.truthy with
      | false =>
        right; right; right
        simp [serveTrigger, handle_cron_event, htru]
      | true =>
        cases hl : g.get_files_info sb with
        | ok keys =>
          right; right; left
          simp [serveTrigger, handle_cron_event, htru, hl]
        | error err =>
          right; right; left
          simp [serveTrigger, handle_cron_event, htru, hl]

/-- Witness for the amended C3 at a concrete input. -/
theorem each_counted_trigger_increments_exactly_one_witness :
    triggerCounted (Trigger.cosEvent gwOk (some (validPayload "src" "a.txt"))) = true ∧
    ((serveTrigger "src" "dst" (create_server "src" "dst")
        (Trigger.cosEvent gwOk (some (validPayload "src" "a.txt")))).1.event_stats
          = incCos (create_server "src" "dst").event_stats ∨
     (serveTrigger "src" "dst" (create_server "src" "dst")
        (Trigger.cosEvent gwOk (some (validPayload "src" "a.txt")))).1.event_stats
          = incCosError (create_server "src" "dst").event_stats ∨
     (serveTrigger "src" "dst" (create_server "src" "dst")
        (Trigger.cosEvent gwOk (some (validPayload "src" "a.txt")))).1.event_stats
          = incCron (create_server "src" "dst").event_stats ∨
     (serveTrigger "src" "dst" (create_server "src" "dst")
        (Trigger.cosEvent gwOk (some (validPayload "src" "a.txt")))).1.event_stats
          = incCronError (create_server "src" "dst").event_stats) :=
  ⟨rfl, each_counted_trigger_increments_exactly_one "src" "dst"
    (create_server "src" "dst")
    (Trigger.cosEvent gwOk (some (validPayload "src" "a.txt"))) rfl⟩

/-- The number of notification triggers (POST /events/cos requests) in a
trigger sequence. -/
def cosTriggerCount : List Trigger → Nat
  | [] => 0
  | Trigger.cosEvent _ _ :: ts => cosTriggerCount ts + 1
  | Trigger.cronEvent _ _ :: ts => cosTriggerCount ts

/-- C5 (counterexample): after a single notification trigger whose body is a
truthy JSON object without a `bucket` field, `cos + cos_error` is 0, yet one
notification trigger was received: the claimed equality fails. -/
theorem cos_counter_sum_counterexample :
    (serveAll "src" "dst" [Trigger.cosEvent gwOk (some noBucketPayload)]).event_stats.cos
      + (serveAll "src" "dst"
          [Trigger.cosEvent gwOk (some noBucketPayload)]).event_stats.cos_error
      = 0
    ∧ cosTriggerCount [Trigger.cosEvent gwOk (some noBucketPayload)] = 1 :=
  ⟨rfl, rfl⟩

/-- The contribution of one trigger to `cos + cos_error`: 1 for every
notification trigger that reaches a counter update (see `triggerCounted`),
0 otherwise. -/
def triggerCosWeight : Trigger → Nat
  | .cosEvent _ none => 1
  | .cosEvent _ (some e) => if !e.truthy || (e.getItem "bucket").isSome then 1 else 0
  | .cronEvent _ _ => 0

/-- One serving step changes `cos + cos_error` by exactly the trigger's
weight. -/
theorem serveTrigger_cos_sum (sb db : Bucket) (st : ServerState) (t : Trigger) :
    (serveTrigger sb db st t).1.event_stats.cos
      + (serveTrigger sb db st t).1.event_stats.cos_error
      = st.event_stats.cos + st.event_stats.cos_error + triggerCosWeight t := by
  cases t with
  | cosEvent g body =>
    cases body with
    | none =>
      simp [serveTrigger, handle_cos_event, triggerCosWeight, incCosError]
      omega
    | some e =>
      cases htru : e.truthy with
      | false =>
        simp [serveTrigger, handle_cos_event, triggerCosWeight, htru, incCosError]
        omega
      | true =>
        cases hb : e.getItem "bucket" with
        | none =>
          simp [serveTrigger, handle_cos_event, triggerCosWeight, htru, hb]
        | some b =>
          cases hbe : b.eqStr sb with
          | false =>
            simp [serveTrigger, handle_cos_event, triggerCosWeight, htru, hb,
                  hbe, incCosError]
            omega
          | true =>
            cases hk : e.getItem "key" with
            | none =>
              simp [serveTrigger, handle_cos_event, triggerCosWeight, htru, hb,
                    hbe, hk, incCos]
              omega
            | some k =>
              simp [serveTrigger, handle_cos_event, triggerCosWeight, htru, hb,
                    hbe, hk, incCos]
              omega
  | cronEvent g body =>
    cases body with
    | none =>
      simp [serveTrigger, handle_cron_event, triggerCosWeight, incCronError]
    | some e =>
      cases htru : e.truthy with
      | false =>
        simp [serveTrigger, handle_cron_event, triggerCosWeight, htru, incCronError]
      | true =>
        cases hl : g.get_files_info sb with
        | ok keys =>
          simp [serveTrigger, handle_cron_event, triggerCosWeight, htru, hl, incCron]
        | error err =>
          simp [serveTrigger, handle_cron_event, triggerCosWeight, htru, hl, incCron]

/-- Folding a trigger sequence from any state adds the total weight to
`cos + cos_error`. -/
theorem serveFrom_cos_sum (sb db : Bucket) (ts : List Trigger) (st : ServerState) :
    (serveFrom sb db st ts).event_stats.cos
      + (serveFrom sb db st ts).event_stats.cos_error
      = st.event_stats.cos + st.event_stats.cos_error
        + (ts.map triggerCosWeight).sum := by
  induction ts generalizing st with
  | nil => simp [serveFrom]
  | cons t ts ih =>
    have hstep : serveFrom sb db st (t :: ts)
        = serveFrom sb db (serveTrigger sb db st t).1 ts := rfl
    rw [hstep, ih, serveTrigger_cos_sum]
    simp
    omega

/-- C5 (amended): for the whole process lifetime, `cos + cos_error` equals
the number of notification triggers received, excluding those whose truthy
JSON body lacks a `bucket` field (those crash the handler before any counter
update, so the reference code never counts them). -/
theorem cos_counter_sum_equals_counted_triggers
    (sb db : Bucket) (ts : List Trigger) :
    (serveAll sb db ts).event_stats.cos
      + (serveAll sb db ts).event_stats.cos_error
      = (ts.map triggerCosWeight).sum := by
  have h := serveFrom_cos_sum sb db ts (create_server sb db)
  simpa [serveAll, create_server] using h

@[simp]
theorem cronProcessFile_fst_key (g : Gateway) (sb db : Bucket) (f : String) :
    (cronProcessFile g sb db f).1.key = Json.str f := rfl

@[simp]
theorem cronProcessFile_fst_source (g : Gateway) (sb db : Bucket) (f : String) :
    (cronProcessFile g sb db f).1.source_bucket = sb := rfl

@[simp]
theorem cronProcessFile_fst_dest (g : Gateway) (sb db : Bucket) (f : String) :
    (cronProcessFile g sb db f).1.destination_bucket = db := rfl

/-- On a truthy body and a successful listing, `handle_cron_event` bumps
`cron`, runs the pipeline per listed key, and appends the one collected
history event. -/
theorem handle_cron_event_accepted (g : Gateway) (sb db : Bucket)
    (st : ServerState) (event : Json) (keys : List String)
    (htru : event.truthy = true)
    (hlist : g.get_files_info sb = .ok keys) :
    handle_cron_event g sb db st (some event) =
      ({ st with
          event_stats := incCron st.event_stats,
          event_history := st.event_history ++
            [{ id := "cron-" ++ toString (st.event_stats.cron + 1),
               objects := keys.map (fun f => (cronProcessFile g sb db f).1) }] },
       .success,
       GatewayCall.list sb
         :: (keys.map (fun f => (cronProcessFile g sb db f).2)).flatten) := by
  simp only [handle_cron_event, htru, hlist, if_true, incCron]
  simp [List.map_map, Function.comp_def]

/-- C6: an accepted sweep over a listing of `keys` answers success and
appends exactly one HistoryRecord, whose TransferEvents are exactly one per
listed key in listing order — with no assumption on any per-key pipeline
outcome. -/
theorem cron_sweep_single_record_per_key
    (g : Gateway) (sb db : Bucket) (st : ServerState) (event : Json)
    (keys : List String)
    (htru : event.truthy = true)
    (hlist : g.get_files_info sb = .ok keys) :
    (handle_cron_event g sb db st (some event)).2.1 = Response.success ∧
    ∃ hr : HistoryRecord,
      (handle_cron_event g sb db st (some event)).1.event_history
        = st.event_history ++ [hr] ∧
      hr.objects.map TransferEvent.key = keys.map Json.str := by
  rw [handle_cron_event_accepted g sb db st event keys htru hlist]
  refine ⟨rfl, _, rfl, ?_⟩
  simp [List.map_map, Function.comp]

/-- Witness for C6 at a concrete input: three keys, every delete failing —
all three keys are still recorded in the single appended record. -/
theorem cron_sweep_single_record_per_key_witness :
    (handle_cron_event (gwListDeleteFails ["a", "b", "c"]) "src" "dst"
        (create_server "src" "dst") (some (Json.num 1))).2.1
      = Response.success ∧
    ∃ hr : HistoryRecord,
      (handle_cron_event (gwListDeleteFails ["a", "b", "c"]) "src" "dst"
          (create_server "src" "dst") (some (Json.num 1))).1.event_history
        = (create_server "src" "dst").event_history ++ [hr] ∧
      hr.objects.map TransferEvent.key = ["a", "b", "c"].map Json.str :=
  cron_sweep_single_record_per_key (gwListDeleteFails ["a", "b", "c"])
    "src" "dst" (create_server "src" "dst") (Json.num 1) ["a", "b", "c"]
    rfl rfl

/-- The recorded buckets of one transfer event match the configured pair. -/
def eventBucketsOk (sb db : Bucket) (e : TransferEvent) : Bool :=
  e.source_bucket == sb && e.destination_bucket == db

/-- Every transfer event of every record in a history uses the configured
buckets. -/
def historyBucketsOk (sb db : Bucket) (h : List HistoryRecord) : Bool :=
  h.all (fun hr => hr.objects.all (eventBucketsOk sb db))

/-- Serving one trigger preserves `historyBucketsOk`: both handlers only
ever append events built from the configured bucket pair. -/
theorem serveTrigger_preserves_historyBucketsOk
    (sb db : Bucket) (st : ServerState) (t : Trigger)
    (h : historyBucketsOk sb db st.event_history = true) :
    historyBucketsOk sb db (serveTrigger sb db st t).1.event_history = true := by
  cases t with
  | cosEvent g body =>
    cases body with
    | none => simpa [serveTrigger, handle_cos_event] using h
    | some e =>
      cases htru : e.truthy with
      | false => simpa [serveTrigger, handle_cos_event, htru] using h
      | true =>
        cases hb : e.getItem "bucket" with
        | none => simpa [serveTrigger, handle_cos_event, htru, hb] using h
        | some b =>
          cases hbe : b.eqStr sb with
          | false =>
            simpa [serveTrigger, handle_cos_event, htru, hb, hbe] using h
          | true =>
            cases hk : e.getItem "key" with
            | none =>
              simpa [serveTrigger, handle_cos_event, htru, hb, hbe, hk] using h
            | some k =>
              simp only [serveTrigger, handle_cos_event, htru, hb, hbe, hk]
              simp only [historyBucketsOk, List.all_append] at h ⊢
              simp [h, eventBucketsOk]
  | cronEvent g body =>
    cases body with
    | none => simpa [serveTrigger, handle_cron_event] using h
    | some e =>
      cases htru : e.truthy with
      | false => simpa [serveTrigger, handle_cron_event, htru] using h
      | true =>
        cases hl : g.get_files_info sb with
        | error err =>
          simpa [serveTrigger, handle_cron_event, htru, hl] using h
        | ok keys =>
          rw [serveTrigger, handle_cron_event_accepted g sb db st e keys htru hl]
          simp only [historyBucketsOk, List.all_append] at h ⊢
          simp only [h, Bool.true_and]
          simp [List.all_eq_true, eventBucketsOk]

/-- Serving any trigger sequence preserves `historyBucketsOk`. -/
theorem serveFrom_preserves_historyBucketsOk
    (sb db : Bucket) (ts : List Trigger) (st : ServerState)
    (h : historyBucketsOk sb db st.event_history = true) :
    historyBucketsOk sb db (serveFrom sb db st ts).event_history = true := by
  induction ts generalizing st with
  | nil => exact h
  | cons t ts ih =>
    exact ih (serveTrigger sb db st t).1
      (serveTrigger_preserves_historyBucketsOk sb db st t h)

/-- C9: after any sequence of triggers from startup, every TransferEvent in
the history carries the configured source bucket as its source and the
configured destination bucket as its destination. -/
theorem all_history_events_use_configured_buckets
    (sb db : Bucket) (ts : List Trigger) :
    historyBucketsOk sb db (serveAll sb db ts).event_history = true :=
  serveFrom_preserves_historyBucketsOk sb db ts
    (create_server sb db) rfl

/-- Serving one trigger never changes `buckets` when it already holds the
configured pair: the conditional append in `handle_cos_event` tests the very
name that `create_server` placed in the list. -/
theorem serveTrigger_preserves_buckets
    (sb db : Bucket) (st : ServerState) (t : Trigger)
    (h : st.buckets = [sb, db]) :
    (serveTrigger sb db st t).1.buckets = [sb, db] := by
  cases t with
  | cosEvent g body =>
    cases body with
    | none => simpa [serveTrigger, handle_cos_event] using h
    | some e =>
      cases htru : e.truthy with
      | false => simpa [serveTrigger, handle_cos_event, htru] using h
      | true =>
        cases hb : e.getItem "bucket" with
        | none => simpa [serveTrigger, handle_cos_event, htru, hb] using h
        | some b =>
          cases hbe : b.eqStr sb with
          | false =>
            simpa [serveTrigger, handle_cos_event, htru, hb, hbe] using h
          | true =>
            cases hk : e.getItem "key" with
            | none =>
              simpa [serveTrigger, handle_cos_event, htru, hb, hbe, hk] using h
            | some k =>
              simp [serveTrigger, handle_cos_event, htru, hb, hbe, hk, h]
  | cronEvent g body =>
    cases body with
    | none => simpa [serveTrigger, handle_cron_event] using h
    | some e =>
      cases htru : e.truthy with
      | false => simpa [serveTrigger, handle_cron_event, htru] using h
      | true =>
        cases hl : g.get_files_info sb with
        | error err =>
          simpa [serveTrigger, handle_cron_event, htru, hl] using h
        | ok keys =>
          simpa [serveTrigger, handle_cron_event, htru, hl] using h

/-- C10: for the entire process lifetime the tracked bucket list is exactly
the configured pair — no trigger, accepted or not, ever adds a name. -/
theorem buckets_always_configured_pair (sb db : Bucket) (ts : List Trigger) :
    (serveAll sb db ts).buckets = [sb, db] := by
  have hinv : ∀ (us : List Trigger) (st : ServerState),
      st.buckets = [sb, db] → (serveFrom sb db st us).buckets = [sb, db] := by
    intro us
    induction us with
    | nil => intro st h; exact h
    | cons t ts ih =>
      intro st h
      exact ih (serveTrigger sb db st t).1
        (serveTrigger_preserves_buckets sb db st t h)
  exact hinv ts (create_server sb db) rfl
